import Mathlib

/-!
Verification development for the subscription aggregator service
(Go repository `em_tz_anvar`): a shallow embedding of the service,
repository and handler layers relevant to the cost-aggregation query
and the update path, with theorems checking the specification's claims
against the embedded code.

Conventions of the embedding:
* month-granular dates (`time.Time` values produced by
  `time.Parse("01-2006", s)` and the `start_date`/`end_date` columns) are
  modelled as `MDate` (a year/month pair of integers); SQL timestamp
  comparison on such normalized values is lexicographic on (year, month);
* Go `int` is modelled as `Int` (prices are small, no overflow concerns);
* UUIDs are modelled as opaque `Nat` identifiers;
* clock readings (`time.Now()`) are modelled as `Int` instants supplied
  as explicit parameters;
* the subscriptions table is modelled as a `List Subscription`;
* fallible Go functions returning `(T, error)` are modelled with
  `Except SvcError T`.
-/

/-- A month-granular date: the (year, month) pair extracted from a
`time.Time` whose day component is normalized (all stored dates and
query-window bounds come from `time.Parse("01-2006", _)`, which yields
the first of the month). -/
structure MDate where
  year : Int
  month : Int
deriving DecidableEq, Repr

/-- The month index `year*12 + month` used by the SQL
`EXTRACT(YEAR FROM d) * 12 + EXTRACT(MONTH FROM d)` arithmetic in
`GetTotalCost` (repository/subscription.go lines 206-211). -/
def MDate.idx (d : MDate) : Int := d.year * 12 + d.month

/-- A month value produced by parsing is between 1 and 12; SQL timestamp
order and month-index order agree exactly on such dates. -/
def MDate.Valid (d : MDate) : Prop := 1 ≤ d.month ∧ d.month ≤ 12

instance (d : MDate) : Decidable d.Valid := by
  unfold MDate.Valid; infer_instance

/-- SQL timestamp comparison (`<=`) restricted to month-granular dates:
lexicographic on (year, month). -/
def MDate.leb (a b : MDate) : Bool :=
  if a.year < b.year then true
  else if b.year < a.year then false
  else decide (a.month ≤ b.month)

/-- SQL `LEAST` on two month-granular timestamps. -/
def dleast (a b : MDate) : MDate := if a.leb b then a else b

/-- SQL `GREATEST` on two month-granular timestamps. -/
def dgreatest (a b : MDate) : MDate := if a.leb b then b else a

/-- The persisted subscription entity (models/subscription models,
src/unnamed/part_001 lines 9-18). -/
structure Subscription where
  id : Nat
  serviceName : String
  price : Int
  userId : Nat
  startDate : MDate
  endDate : Option MDate
  createdAt : Int
  updatedAt : Int
deriving DecidableEq, Repr

/-- The cost-aggregation filter (`models.CostFilter`,
src/unnamed/part_001 lines 42-47): optional user id, optional
service-name substring, and the query window bounds. -/
structure CostFilter where
  userId : Option Nat
  serviceName : String
  startDate : MDate
  endDate : MDate
deriving DecidableEq, Repr

/-- Case folding for the `ILIKE` comparison (ASCII case folding;
wildcard characters inside the filter string are not modelled — the
generated pattern is `'%' + name + '%'`, i.e. a substring test). -/
def lowerChars (s : String) : List Char := s.data.map Char.toLower

/-- Does the second character list start with the first one? -/
def charsStartWith : List Char → List Char → Bool
  | [], _ => true
  | _ :: _, [] => false
  | p :: ps, h :: hs => p == h && charsStartWith ps hs

/-- Does the second character list contain the first as a contiguous run? -/
def charsContain (p : List Char) : List Char → Bool
  | [] => p.isEmpty
  | c :: hs => charsStartWith p (c :: hs) || charsContain p hs

/-- `hay ILIKE '%' + pat + '%'`: case-insensitive substring test, as
built by `GetAll`/`GetTotalCost` (repository/subscription.go lines
98-101 and 225-228). -/
def containsCI (hay pat : String) : Bool :=
  charsContain (lowerChars pat) (lowerChars hay)

/-- The `end_date IS NULL OR end_date >= $2` clause of the
`GetTotalCost` query (`$2` is the window start). -/
def endDateCond (winStart : MDate) : Option MDate → Bool
  | none => true
  | some e => winStart.leb e

/-- The optional `user_id = $n` condition (appended only when the
filter carries a user id, repository/subscription.go lines 219-223). -/
def userCond (fu : Option Nat) (u : Nat) : Bool :=
  match fu with
  | none => true
  | some v => u == v

/-- The optional `service_name ILIKE $n` condition (appended only when
the filter's service name is non-empty,
repository/subscription.go lines 225-228). -/
def nameCond (fname name : String) : Bool :=
  if fname = "" then true else containsCI name fname

/-- The `WHERE` clause of the `GetTotalCost` query
(repository/subscription.go lines 213 and 219-231):
`start_date <= $1 AND (end_date IS NULL OR end_date >= $2)` with `$1`
the window end and `$2` the window start, plus the optional
`user_id = $n` and `service_name ILIKE $n` conditions. -/
def costRowMatches (f : CostFilter) (s : Subscription) : Bool :=
  s.startDate.leb f.endDate
    && endDateCond f.startDate s.endDate
    && userCond f.userId s.userId
    && nameCond f.serviceName s.serviceName

/-- The per-row month factor of the `GetTotalCost` select expression
(repository/subscription.go lines 206-211):
`EXTRACT(YEAR FROM LEAST(COALESCE(end_date, $1), $1)) * 12
 + EXTRACT(MONTH FROM LEAST(COALESCE(end_date, $1), $1))
 - EXTRACT(YEAR FROM GREATEST(start_date, $2)) * 12
 - EXTRACT(MONTH FROM GREATEST(start_date, $2)) + 1`. -/
def rowMonths (f : CostFilter) (s : Subscription) : Int :=
  (dleast (s.endDate.getD f.endDate) f.endDate).idx
    - (dgreatest s.startDate f.startDate).idx + 1

/-- `GetTotalCost` (repository/subscription.go lines 199-246):
`COALESCE(SUM(price * months), 0)` over the rows satisfying the
`WHERE` clause. -/
def getTotalCost : List Subscription → CostFilter → Int
  | [], _ => 0
  | s :: rest, f =>
      (if costRowMatches f s then s.price * rowMonths f s else 0) + getTotalCost rest f

/-- `time.Parse("01-2006", s)` (parseMonthYear, src/unnamed/part_003
lines 157-159): the layout requires a two-digit month, a dash and a
four-digit year, with the month between 1 and 12. -/
def parseMonthYear (s : String) : Option MDate :=
  match s.data with
  | [m1, m2, dash, y1, y2, y3, y4] =>
      if m1.isDigit && m2.isDigit && dash == Char.ofNat 45
          && y1.isDigit && y2.isDigit && y3.isDigit && y4.isDigit then
        let m : Nat := 10 * (m1.toNat - 48) + (m2.toNat - 48)
        let y : Nat := 1000 * (y1.toNat - 48) + 100 * (y2.toNat - 48)
          + 10 * (y3.toNat - 48) + (y4.toNat - 48)
        if 1 ≤ m ∧ m ≤ 12 then some ⟨(y : Int), (m : Int)⟩ else none
      else none
  | _ => none

/-- The error kinds flowing out of the repository and service layers:
`repository.ErrNotFound`, the service's wrapped parse failures
(`invalid user_id format`, `invalid start_date format`,
`invalid end_date format`), and wrapped database errors carrying the
driver message. -/
inductive SvcError where
  | notFound
  | invalidUserId
  | invalidStartDate
  | invalidEndDate
  | storage (msg : String)
deriving DecidableEq, Repr

instance {ε α : Type} [DecidableEq ε] [DecidableEq α] : DecidableEq (Except ε α) := fun a b =>
  match a, b with
  | .ok x, .ok y =>
      if h : x = y then .isTrue (congrArg Except.ok h)
      else .isFalse (fun hh => h (Except.ok.inj hh))
  | .error x, .error y =>
      if h : x = y then .isTrue (congrArg Except.error h)
      else .isFalse (fun hh => h (Except.error.inj hh))
  | .ok _, .error _ => .isFalse (fun hh => Except.noConfusion hh)
  | .error _, .ok _ => .isFalse (fun hh => Except.noConfusion hh)

/-- `err.Error()` for the embedded error values: `ErrNotFound` prints
"subscription not found" (repository/subscription.go line 17); the
parse failures are wrapped with `fmt.Errorf("invalid ..._format: %w")`
(src/unnamed/part_003 lines 33, 39, 47, 107, 115); storage errors carry
the already-wrapped repository message verbatim. -/
def SvcError.message : SvcError → String
  | .notFound => "subscription not found"
  | .invalidUserId => "invalid user_id format"
  | .invalidStartDate => "invalid start_date format"
  | .invalidEndDate => "invalid end_date format"
  | .storage msg => msg

/-- `models.UpdateSubscriptionReq` (src/unnamed/part_001 lines 28-33):
note the request type carries no `user_id` and no `id` field. -/
structure UpdateReq where
  serviceName : String
  price : Int
  startDate : String
  endDate : String
deriving DecidableEq, Repr

/-- `models.CreateSubscriptionReq` (src/unnamed/part_001 lines 20-26). -/
structure CreateReq where
  serviceName : String
  price : Int
  userId : String
  startDate : String
  endDate : String
deriving DecidableEq, Repr

/-- The tail of the patch logic of `subscriptionService.Update`
(src/unnamed/part_003 lines 112-120): apply the optional `end_date`
patch, then stamp `updated_at` with the current time. -/
def applyPatchEnd (s : Subscription) (req : UpdateReq) (now : Int) :
    Except SvcError Subscription :=
  if req.endDate = "" then .ok { s with updatedAt := now }
  else
    match parseMonthYear req.endDate with
    | none => .error .invalidEndDate
    | some d => .ok { s with endDate := some d, updatedAt := now }

/-- The `service_name` step of the patch (src/unnamed/part_003 lines
96-98): a non-empty string replaces the field, an empty one is a no-op. -/
def patchName (sub : Subscription) (req : UpdateReq) : Subscription :=
  if req.serviceName = "" then sub else { sub with serviceName := req.serviceName }

/-- The `price` step of the patch (src/unnamed/part_003 lines 100-102):
a positive price replaces the field, zero or negative is a no-op. -/
def patchPrice (sub : Subscription) (req : UpdateReq) : Subscription :=
  if 0 < req.price then { sub with price := req.price } else sub

/-- The patch logic of `subscriptionService.Update`
(src/unnamed/part_003 lines 96-120): a non-empty `service_name`
replaces the field, a positive `price` replaces the field, a non-empty
`start_date`/`end_date` string is parsed (failing with the wrapped
parse error) and replaces the field; absent/empty/zero fields are
no-ops; finally `updated_at` is stamped. -/
def applyPatch (sub0 : Subscription) (req : UpdateReq) (now : Int) :
    Except SvcError Subscription :=
  if req.startDate = "" then applyPatchEnd (patchPrice (patchName sub0 req) req) req now
  else
    match parseMonthYear req.startDate with
    | none => .error .invalidStartDate
    | some d => applyPatchEnd { patchPrice (patchName sub0 req) req with startDate := d } req now

/-- `subscriptionRepository.GetByID` (repository/subscription.go lines
59-79): select the row by id, `ErrNotFound` when absent. -/
def getById (store : List Subscription) (id : Nat) : Except SvcError Subscription :=
  match store.find? (fun s => s.id == id) with
  | none => .error .notFound
  | some s => .ok s

/-- The row effect of the repository `UPDATE` statement
(repository/subscription.go lines 138-142): on the row whose id
matches, `SET service_name, price, start_date, end_date, updated_at`;
`id`, `user_id` and `created_at` are not in the `SET` clause. -/
def applyRowUpdate (row : Subscription) (sub : Subscription) : Subscription :=
  if row.id == sub.id then
    { row with
      serviceName := sub.serviceName
      price := sub.price
      startDate := sub.startDate
      endDate := sub.endDate
      updatedAt := sub.updatedAt }
  else row

/-- `subscriptionRepository.Update` (repository/subscription.go lines
137-172): execute the `UPDATE`; when no row was affected return
`ErrNotFound`. -/
def repoUpdate (store : List Subscription) (sub : Subscription) :
    Except SvcError (List Subscription) :=
  if store.any (fun r => r.id == sub.id) then
    .ok (store.map (fun r => applyRowUpdate r sub))
  else .error .notFound

/-- One call into the `SubscriptionRepository` interface
(src/unnamed/part_004 lines 12-21), recorded so that theorems can
speak about which repository methods an operation invokes. -/
inductive RepoCall where
  | create (s : Subscription)
  | getById (id : Nat)
  | update (s : Subscription)
  | updateAtomically (id : Nat)
  | delete (id : Nat)
deriving DecidableEq, Repr

/-- Is the call an invocation of the atomic update coordinator? -/
def RepoCall.isAtomic : RepoCall → Bool
  | .updateAtomically _ => true
  | _ => false

/-- `subscriptionService.Update` (src/unnamed/part_003 lines 88-131):
fetch the row with `GetByID`, apply the patch in memory, stamp
`updated_at` with `time.Now()` (modelled by `now`), and persist with
the plain repository `Update`; the second component records the
repository calls the operation makes, the third is the resulting
stored state. -/
def serviceUpdate (store : List Subscription) (id : Nat) (req : UpdateReq) (now : Int) :
    Except SvcError Subscription × List RepoCall × List Subscription :=
  match getById store id with
  | .error e => (.error e, [RepoCall.getById id], store)
  | .ok sub =>
    match applyPatch sub req now with
    | .error e => (.error e, [RepoCall.getById id], store)
    | .ok sub2 =>
      match repoUpdate store sub2 with
      | .error e => (.error e, [RepoCall.getById id, RepoCall.update sub2], store)
      | .ok store2 => (.ok sub2, [RepoCall.getById id, RepoCall.update sub2], store2)

/-- `subscriptionService.Create` (src/unnamed/part_003 lines 24-73):
parse the user id (the `uuid.Parse` collaborator result is supplied as
`uid`), parse the dates, assemble the entity with
`CreatedAt = UpdatedAt = now` and the freshly generated `newId`, and
insert it. -/
def serviceCreate (store : List Subscription) (newId : Nat) (uid : Option Nat)
    (req : CreateReq) (now : Int) : Except SvcError Subscription × List Subscription :=
  match uid with
  | none => (.error .invalidUserId, store)
  | some u =>
    match parseMonthYear req.startDate with
    | none => (.error .invalidStartDate, store)
    | some sd =>
      if req.endDate = "" then
        let sub : Subscription :=
          { id := newId, serviceName := req.serviceName, price := req.price,
            userId := u, startDate := sd, endDate := none,
            createdAt := now, updatedAt := now }
        (.ok sub, store ++ [sub])
      else
        match parseMonthYear req.endDate with
        | none => (.error .invalidEndDate, store)
        | some ed =>
          let sub : Subscription :=
            { id := newId, serviceName := req.serviceName, price := req.price,
              userId := u, startDate := sd, endDate := some ed,
              createdAt := now, updatedAt := now }
          (.ok sub, store ++ [sub])

/-- Modelled from the spec: the implementation of
`SubscriptionRepository.UpdateAtomically` is not among the sources
(only its interface declaration, src/unnamed/part_004 lines 17-18, its
unit tests and a mock are). Per spec §4.2 and the repository tests: open
a transaction, `SELECT ... FOR UPDATE` the row by id (rolling back with
`ErrNotFound` when absent), run the mutation callback (rolling back and
propagating its error verbatim on failure), persist the mutated row and
commit. Rollback leaves the stored state unchanged. -/
def updateAtomically (store : List Subscription) (id : Nat)
    (updateFn : Subscription → Except SvcError Subscription) :
    Except SvcError Subscription × List Subscription :=
  match store.find? (fun s => s.id == id) with
  | none => (.error .notFound, store)
  | some s =>
    match updateFn s with
    | .error e => (.error e, store)
    | .ok s2 =>
      match repoUpdate store s2 with
      | .error e => (.error e, store)
      | .ok store2 => (.ok s2, store2)

/-- The error mapping of `Handler.UpdateSubscription`
(handler/subscription.go lines 160-169): `ErrNotFound` becomes
`404` with body "subscription not found"; every other error becomes
`500` with `err.Error()` as the body. Success is `200`. -/
def updateSubscriptionResponse : Except SvcError Subscription → Nat × String
  | .ok _ => (200, "")
  | .error .notFound => (404, "subscription not found")
  | .error e => (500, e.message)

/-- The error mapping of `Handler.GetSubscription`
(handler/subscription.go lines 62-71): `ErrNotFound` becomes `404`;
every other error becomes `500` with `err.Error()` as the body. -/
def getSubscriptionResponse : Except SvcError Subscription → Nat × String
  | .ok _ => (200, "")
  | .error .notFound => (404, "subscription not found")
  | .error e => (500, e.message)

/-- The error mapping of `Handler.CreateSubscription`
(handler/subscription.go lines 34-39): every service error becomes
`500` with `err.Error()` as the body; success is `201`. -/
def createSubscriptionResponse : Except SvcError Subscription → Nat × String
  | .ok _ => (201, "")
  | .error e => (500, e.message)

/-- `models.TotalCostResponse` (src/unnamed/part_001 lines 49-52). -/
structure TotalCostResponse where
  totalCost : Int
  currency : String
deriving DecidableEq, Repr

/-- `subscriptionService.GetTotalCost` (src/unnamed/part_003 lines
140-154): delegate to the repository and wrap the total with the fixed
currency "RUB". -/
def serviceGetTotalCost (rows : List Subscription) (f : CostFilter) : TotalCostResponse :=
  { totalCost := getTotalCost rows f, currency := "RUB" }

/-- Claim-side wording of the open-or-overlapping end condition, on
month indices. -/
def specEndDateCond (winStart : MDate) : Option MDate → Bool
  | none => true
  | some e => decide (winStart.idx ≤ e.idx)

/-- Claim-side wording of the candidate condition: the subscription
satisfies `start_date <= windowEnd` and
`end_date is null or end_date >= windowStart` (stated on month indices,
as the claim speaks of month-granular dates), and matches the optional
user-id filter and the case-insensitive service-name substring filter. -/
def specMatches (f : CostFilter) (s : Subscription) : Bool :=
  decide (s.startDate.idx ≤ f.endDate.idx)
    && specEndDateCond f.startDate s.endDate
    && userCond f.userId s.userId
    && nameCond f.serviceName s.serviceName

/-- Claim-side effective interval end in month-index form:
`min(end_date if present else windowEnd, windowEnd)`. -/
def specEffEnd (f : CostFilter) (s : Subscription) : Int :=
  min (s.endDate.getD f.endDate).idx f.endDate.idx

/-- Claim-side effective interval start in month-index form:
`max(start_date, windowStart)`. -/
def specEffStart (f : CostFilter) (s : Subscription) : Int :=
  max s.startDate.idx f.startDate.idx

/-- Claim-side overlap month count:
`(effEndYear*12 + effEndMonth) - (effStartYear*12 + effStartMonth) + 1`. -/
def specMonths (f : CostFilter) (s : Subscription) : Int :=
  specEffEnd f s - specEffStart f s + 1

theorem MDate.leb_iff_idx {a b : MDate} (ha : a.Valid) (hb : b.Valid) :
    a.leb b = true ↔ a.idx ≤ b.idx := by
  obtain ⟨ha1, ha2⟩ := ha
  obtain ⟨hb1, hb2⟩ := hb
  unfold MDate.leb MDate.idx
  split_ifs with h1 h2 <;> simp <;> omega

theorem MDate.leb_eq_decide {a b : MDate} (ha : a.Valid) (hb : b.Valid) :
    a.leb b = decide (a.idx ≤ b.idx) := by
  by_cases h : a.idx ≤ b.idx
  · simpa [h] using (MDate.leb_iff_idx ha hb).mpr h
  · have hne : a.leb b ≠ true := fun hx => h ((MDate.leb_iff_idx ha hb).mp hx)
    simp only [Bool.not_eq_true] at hne
    simp [h, hne]

theorem dleast_idx {a b : MDate} (ha : a.Valid) (hb : b.Valid) :
    (dleast a b).idx = min a.idx b.idx := by
  unfold dleast
  rcases hl : a.leb b with _ | _
  · have hgt : ¬ a.idx ≤ b.idx := fun hle => by
      have := (MDate.leb_iff_idx ha hb).mpr hle
      rw [this] at hl
      exact absurd hl (by simp)
    simp only [hl, Bool.false_eq_true, if_false]
    omega
  · have hle := (MDate.leb_iff_idx ha hb).mp hl
    simp only [hl, if_true]
    omega

theorem dgreatest_idx {a b : MDate} (ha : a.Valid) (hb : b.Valid) :
    (dgreatest a b).idx = max a.idx b.idx := by
  unfold dgreatest
  rcases hl : a.leb b with _ | _
  · have hgt : ¬ a.idx ≤ b.idx := fun hle => by
      have := (MDate.leb_iff_idx ha hb).mpr hle
      rw [this] at hl
      exact absurd hl (by simp)
    simp only [hl, Bool.false_eq_true, if_false]
    omega
  · have hle := (MDate.leb_iff_idx ha hb).mp hl
    simp only [hl, if_true]
    omega

theorem costRowMatches_eq_spec {f : CostFilter} {s : Subscription}
    (hs : s.startDate.Valid ∧ ∀ e ∈ s.endDate, e.Valid)
    (hfs : f.startDate.Valid) (hfe : f.endDate.Valid) :
    costRowMatches f s = specMatches f s := by
  obtain ⟨hs1, hs2⟩ := hs
  have hend : endDateCond f.startDate s.endDate = specEndDateCond f.startDate s.endDate := by
    cases he : s.endDate with
    | none => rfl
    | some e =>
      have hev : e.Valid := hs2 e (by simp [he])
      simp only [endDateCond, specEndDateCond]
      exact MDate.leb_eq_decide hfs hev
  unfold costRowMatches specMatches
  rw [MDate.leb_eq_decide hs1 hfe, hend]

theorem rowMonths_eq_spec {f : CostFilter} {s : Subscription}
    (hs : s.startDate.Valid ∧ ∀ e ∈ s.endDate, e.Valid)
    (hfs : f.startDate.Valid) (hfe : f.endDate.Valid) :
    rowMonths f s = specMonths f s := by
  obtain ⟨hs1, hs2⟩ := hs
  have hend : (s.endDate.getD f.endDate).Valid := by
    cases he : s.endDate with
    | none => simpa using hfe
    | some e => simpa using hs2 e (by simp [he])
  unfold rowMonths specMonths specEffEnd specEffStart
  rw [dleast_idx hend hfe, dgreatest_idx hs1 hfs]

theorem rowMonths_pos {f : CostFilter} {s : Subscription}
    (hs : s.startDate.Valid ∧ ∀ e ∈ s.endDate, e.Valid)
    (hse : ∀ e ∈ s.endDate, s.startDate.idx ≤ e.idx)
    (hfs : f.startDate.Valid) (hfe : f.endDate.Valid)
    (hw : f.startDate.idx ≤ f.endDate.idx)
    (hmatch : costRowMatches f s = true) : 1 ≤ rowMonths f s := by
  rw [rowMonths_eq_spec hs hfs hfe]
  rw [costRowMatches_eq_spec hs hfs hfe] at hmatch
  unfold specMatches at hmatch
  simp only [Bool.and_eq_true, decide_eq_true_eq] at hmatch
  obtain ⟨⟨⟨h1, h2⟩, _⟩, _⟩ := hmatch
  unfold specMonths specEffEnd specEffStart
  cases he : s.endDate with
  | none =>
    simp only [Option.getD_none]
    omega
  | some e =>
    have h3 := hse e (by simp [he])
    rw [he] at h2
    simp only [specEndDateCond, decide_eq_true_eq] at h2
    simp only [Option.getD_some]
    omega

/-- Claim C1: for the cost aggregation (`GetTotalCost`), assuming
month-granular dates, `start_date <= end_date` where an end is present,
and an ordered window, every subscription satisfying
`start_date <= windowEnd` and (`end_date` null or `end_date >= windowStart`)
and matching the optional user-id filter and the case-insensitive
service-name substring filter contributes exactly
`price * ((effEndYear*12 + effEndMonth) - (effStartYear*12 + effStartMonth) + 1)`
— effective end `min(end_date ?? windowEnd, windowEnd)`, effective start
`max(start_date, windowStart)` — and every other subscription
contributes zero. -/
theorem getTotalCost_prorates_matching_rows
    (rows : List Subscription) (f : CostFilter)
    (hv : ∀ s ∈ rows, s.startDate.Valid ∧ ∀ e ∈ s.endDate, e.Valid)
    (hse : ∀ s ∈ rows, ∀ e ∈ s.endDate, s.startDate.idx ≤ e.idx)
    (hfs : f.startDate.Valid) (hfe : f.endDate.Valid)
    (hw : f.startDate.idx ≤ f.endDate.idx) :
    getTotalCost rows f
      = (rows.map (fun s => if specMatches f s then s.price * specMonths f s else 0)).sum := by
  induction rows with
  | nil => rfl
  | cons s rest ih =>
    have hs := hv s (List.mem_cons_self s rest)
    have hrest : ∀ x ∈ rest, x.startDate.Valid ∧ ∀ e ∈ x.endDate, e.Valid :=
      fun x hx => hv x (List.mem_cons_of_mem s hx)
    have hserest : ∀ x ∈ rest, ∀ e ∈ x.endDate, x.startDate.idx ≤ e.idx :=
      fun x hx => hse x (List.mem_cons_of_mem s hx)
    simp only [getTotalCost, List.map_cons, List.sum_cons]
    rw [ih hrest hserest, costRowMatches_eq_spec hs hfs hfe, rowMonths_eq_spec hs hfs hfe]

def c1Sub : Subscription :=
  { id := 1, serviceName := "Yandex Plus", price := 400, userId := 7,
    startDate := ⟨2025, 1⟩, endDate := some ⟨2025, 12⟩, createdAt := 0, updatedAt := 0 }

def c1OtherSub : Subscription :=
  { id := 2, serviceName := "Netflix", price := 300, userId := 9,
    startDate := ⟨2026, 2⟩, endDate := none, createdAt := 0, updatedAt := 0 }

def c1Filter : CostFilter :=
  { userId := some 7, serviceName := "plus", startDate := ⟨2025, 1⟩, endDate := ⟨2025, 12⟩ }

/-- Witness for C1: the per-row characterization instantiated at a
concrete store and filter. -/
theorem getTotalCost_prorates_matching_rows_witness :
    getTotalCost [c1Sub, c1OtherSub] c1Filter
      = ([c1Sub, c1OtherSub].map
          (fun s => if specMatches c1Filter s then s.price * specMonths c1Filter s else 0)).sum :=
  getTotalCost_prorates_matching_rows [c1Sub, c1OtherSub] c1Filter
    (by decide) (by decide) (by decide) (by decide) (by decide)

def c3Sub : Subscription :=
  { id := 1, serviceName := "Yandex", price := 100, userId := 7,
    startDate := ⟨2025, 1⟩, endDate := none, createdAt := 0, updatedAt := 0 }

def c3InvWindow : CostFilter :=
  { userId := none, serviceName := "", startDate := ⟨2025, 12⟩, endDate := ⟨2025, 1⟩ }

/-- Counterexample to C3: the SQL month count carries no clamp to zero.
With the inverted window 12-2025 .. 01-2025, an open-ended subscription
started 01-2025 with price 100 passes the `WHERE` filter, its raw month
count is -10, and the returned total is -1000 < 0 although every stored
price is positive. -/
theorem getTotalCost_negative_on_inverted_window :
    costRowMatches c3InvWindow c3Sub = true
      ∧ rowMonths c3InvWindow c3Sub = -10
      ∧ (∀ s ∈ [c3Sub], 0 < s.price)
      ∧ getTotalCost [c3Sub] c3InvWindow = -1000 := by
  decide

/-- Claim C3 (amended): the clamp claimed by the spec does not exist in
the SQL, so non-negativity holds only on ordered inputs: provided
`windowStart <= windowEnd` and every stored subscription has
`start_date <= end_date` whenever the end is present (all dates
month-granular), every subscription passing the aggregation's source
filter has month count at least 1 (in particular never negative), and
the returned total is non-negative whenever all stored prices are
positive. -/
theorem getTotalCost_nonneg_on_ordered_windows
    (rows : List Subscription) (f : CostFilter)
    (hv : ∀ s ∈ rows, s.startDate.Valid ∧ ∀ e ∈ s.endDate, e.Valid)
    (hse : ∀ s ∈ rows, ∀ e ∈ s.endDate, s.startDate.idx ≤ e.idx)
    (hfs : f.startDate.Valid) (hfe : f.endDate.Valid)
    (hw : f.startDate.idx ≤ f.endDate.idx)
    (hp : ∀ s ∈ rows, 0 < s.price) :
    (∀ s ∈ rows, costRowMatches f s = true → 1 ≤ rowMonths f s) ∧
      0 ≤ getTotalCost rows f := by
  constructor
  · intro s hsmem hmatch
    exact rowMonths_pos (hv s hsmem) (hse s hsmem) hfs hfe hw hmatch
  · induction rows with
    | nil => simp [getTotalCost]
    | cons s rest ih =>
      have hterm : 0 ≤ (if costRowMatches f s then s.price * rowMonths f s else 0) := by
        split_ifs with hm
        · have hmo := rowMonths_pos (hv s (List.mem_cons_self s rest))
            (hse s (List.mem_cons_self s rest)) hfs hfe hw hm
          have hps := hp s (List.mem_cons_self s rest)
          exact mul_nonneg (le_of_lt hps) (by omega)
        · exact le_refl 0
      have hrestsum := ih
        (fun x hx => hv x (List.mem_cons_of_mem s hx))
        (fun x hx => hse x (List.mem_cons_of_mem s hx))
        (fun x hx => hp x (List.mem_cons_of_mem s hx))
      simp only [getTotalCost]
      exact add_nonneg hterm hrestsum

def c3wSub : Subscription :=
  { id := 1, serviceName := "Yandex", price := 400, userId := 7,
    startDate := ⟨2025, 1⟩, endDate := some ⟨2025, 12⟩, createdAt := 0, updatedAt := 0 }

def c3wWindow : CostFilter :=
  { userId := none, serviceName := "", startDate := ⟨2025, 6⟩, endDate := ⟨2025, 6⟩ }

/-- Witness for the amended C3 at a concrete ordered input. -/
theorem getTotalCost_nonneg_on_ordered_windows_witness :
    (∀ s ∈ [c3wSub], costRowMatches c3wWindow s = true → 1 ≤ rowMonths c3wWindow s) ∧
      0 ≤ getTotalCost [c3wSub] c3wWindow :=
  getTotalCost_nonneg_on_ordered_windows [c3wSub] c3wWindow
    (by decide) (by decide) (by decide) (by decide) (by decide) (by decide)

/-- Claim C2 (code evaluation): the service Update operation does not go
through the atomic update coordinator. On every input its repository
trace contains no `UpdateAtomically` invocation, and on every
successful update the trace is exactly an unlocked `GetByID` followed
by a plain `Update` — a read-then-write outside any transaction. This
contradicts the claim (a code bug: the repository interface declares
`UpdateAtomically` for exactly this purpose and the service unit tests
mock only that method, while `subscriptionService.Update` never calls
it). -/
theorem serviceUpdate_bypasses_coordinator
    (store : List Subscription) (id : Nat) (req : UpdateReq) (now : Int) :
    (serviceUpdate store id req now).2.1.all (fun c => !c.isAtomic) = true
      ∧ (∀ res, (serviceUpdate store id req now).1 = .ok res →
          (serviceUpdate store id req now).2.1 = [RepoCall.getById id, RepoCall.update res]) := by
  unfold serviceUpdate
  cases hg : getById store id with
  | error e => simp [RepoCall.isAtomic]
  | ok sub =>
    cases hp : applyPatch sub req now with
    | error e => simp [hp, RepoCall.isAtomic]
    | ok sub2 =>
      cases hu : repoUpdate store sub2 with
      | error e => simp [hp, hu, RepoCall.isAtomic]
      | ok store2 =>
        refine ⟨by simp [hp, hu, RepoCall.isAtomic], ?_⟩
        intro res hres
        simp only [hp, hu, Except.ok.injEq] at hres
        subst hres
        simp [hp, hu]

def c2Sub : Subscription :=
  { id := 1, serviceName := "Yandex", price := 400, userId := 7,
    startDate := ⟨2025, 1⟩, endDate := none, createdAt := 0, updatedAt := 0 }

def c2Req : UpdateReq :=
  { serviceName := "", price := 600, startDate := "", endDate := "" }

def c2Res : Subscription := { c2Sub with price := 600, updatedAt := 5 }

/-- Witness for C2: a concrete successful update whose trace is the
unlocked read followed by the plain write. -/
theorem serviceUpdate_bypasses_coordinator_witness :
    (serviceUpdate [c2Sub] 1 c2Req 5).2.1.all (fun c => !c.isAtomic) = true
      ∧ (serviceUpdate [c2Sub] 1 c2Req 5).2.1 = [RepoCall.getById 1, RepoCall.update c2Res] :=
  ⟨(serviceUpdate_bypasses_coordinator [c2Sub] 1 c2Req 5).1,
   (serviceUpdate_bypasses_coordinator [c2Sub] 1 c2Req 5).2 c2Res (by decide)⟩

def c4Sub : Subscription :=
  { id := 1, serviceName := "Yandex", price := 400, userId := 7,
    startDate := ⟨2025, 1⟩, endDate := none, createdAt := 0, updatedAt := 0 }

def c4Req : UpdateReq :=
  { serviceName := "", price := 0, startDate := "13-2025", endDate := "" }

/-- Counterexample to C4: at the HTTP boundary an unparseable patch date
on an existing subscription is answered with the 500 internal-error
response, not a caller-fixable validation response: at this concrete
input the service propagates the parse error and the handler maps it to
status 500. -/
theorem updateParseFailure_counterexample :
    (serviceUpdate [c4Sub] 1 c4Req 5).1 = .error .invalidStartDate
      ∧ (updateSubscriptionResponse (serviceUpdate [c4Sub] 1 c4Req 5).1).1 = 500 := by
  decide

/-- Claim C4 (amended): when the patch carries an unparseable date
string, the update operation propagates the distinct parse error
(neither `NotFound` nor a storage error) and performs no write (the
stored state is unchanged and the repository trace holds no write
call); but at the HTTP boundary this failure is mapped to the 500
internal-error response — the same status used for storage failures —
not to a validation response. -/
theorem updateParseFailure_maps_to_500
    (store : List Subscription) (id : Nat) (req : UpdateReq) (now : Int)
    (sub : Subscription)
    (hfound : getById store id = .ok sub)
    (hne : req.startDate ≠ "")
    (hbad : parseMonthYear req.startDate = none) :
    serviceUpdate store id req now = (.error .invalidStartDate, [RepoCall.getById id], store)
      ∧ (updateSubscriptionResponse (.error .invalidStartDate)).1 = 500
      ∧ SvcError.invalidStartDate ≠ SvcError.notFound
      ∧ (∀ msg, SvcError.invalidStartDate ≠ SvcError.storage msg) := by
  have hpatch : applyPatch sub req now = .error .invalidStartDate := by
    unfold applyPatch
    rw [if_neg hne, hbad]
  refine ⟨?_, rfl, by simp, by simp⟩
  unfold serviceUpdate
  rw [hfound]
  simp only [hpatch]

def c4aSub : Subscription :=
  { id := 3, serviceName := "Netflix", price := 500, userId := 8,
    startDate := ⟨2025, 2⟩, endDate := none, createdAt := 0, updatedAt := 0 }

def c4aReq : UpdateReq :=
  { serviceName := "", price := 0, startDate := "garbage", endDate := "" }

/-- Witness for the amended C4 at a concrete input. -/
theorem updateParseFailure_maps_to_500_witness :
    serviceUpdate [c4aSub] 3 c4aReq 9 = (.error .invalidStartDate, [RepoCall.getById 3], [c4aSub])
      ∧ (updateSubscriptionResponse (.error .invalidStartDate)).1 = 500
      ∧ SvcError.invalidStartDate ≠ SvcError.notFound
      ∧ (∀ msg, SvcError.invalidStartDate ≠ SvcError.storage msg) :=
  updateParseFailure_maps_to_500 [c4aSub] 3 c4aReq 9 c4aSub (by decide) (by decide) (by decide)

/-- Claim C5: for every id identifying no stored subscription, the
update operations return `NotFound` and perform no write: both the
(spec-modelled) `updateAtomically` and the service `Update` leave the
stored state exactly as it was. -/
theorem update_notFound_no_write
    (store : List Subscription) (id : Nat)
    (updateFn : Subscription → Except SvcError Subscription)
    (req : UpdateReq) (now : Int)
    (habsent : ∀ s ∈ store, s.id ≠ id) :
    updateAtomically store id updateFn = (.error .notFound, store)
      ∧ serviceUpdate store id req now = (.error .notFound, [RepoCall.getById id], store) := by
  have hfind : store.find? (fun s => s.id == id) = none := by
    rw [List.find?_eq_none]
    intro s hs
    simpa using habsent s hs
  constructor
  · unfold updateAtomically
    rw [hfind]
  · unfold serviceUpdate getById
    rw [hfind]

def c5Sub : Subscription :=
  { id := 1, serviceName := "Yandex", price := 400, userId := 7,
    startDate := ⟨2025, 1⟩, endDate := none, createdAt := 0, updatedAt := 0 }

def c5Req : UpdateReq :=
  { serviceName := "New", price := 500, startDate := "", endDate := "" }

/-- Witness for C5: a store holding only id 1, updated at the missing
id 2. -/
theorem update_notFound_no_write_witness :
    updateAtomically [c5Sub] 2 (fun s => Except.ok s) = (.error .notFound, [c5Sub])
      ∧ serviceUpdate [c5Sub] 2 c5Req 5 = (.error .notFound, [RepoCall.getById 2], [c5Sub]) :=
  update_notFound_no_write [c5Sub] 2 (fun s => Except.ok s) c5Req 5 (by decide)

theorem applyPatchEnd_ok {s : Subscription} {req : UpdateReq} {now : Int} {res : Subscription}
    (h : applyPatchEnd s req now = .ok res) :
    res.updatedAt = now ∧ res.id = s.id ∧ res.userId = s.userId ∧ res.createdAt = s.createdAt
      ∧ res.serviceName = s.serviceName ∧ res.price = s.price ∧ res.startDate = s.startDate
      ∧ (req.endDate = "" → res.endDate = s.endDate) := by
  unfold applyPatchEnd at h
  split_ifs at h with he
  · simp only [Except.ok.injEq] at h
    subst h
    simp
  · cases hp : parseMonthYear req.endDate with
    | none => rw [hp] at h; exact Except.noConfusion h
    | some d =>
      rw [hp] at h
      simp only [Except.ok.injEq] at h
      subst h
      simp [he]

theorem patchSteps_fields (sub : Subscription) (req : UpdateReq) :
    (patchPrice (patchName sub req) req).id = sub.id
      ∧ (patchPrice (patchName sub req) req).userId = sub.userId
      ∧ (patchPrice (patchName sub req) req).createdAt = sub.createdAt
      ∧ (patchPrice (patchName sub req) req).startDate = sub.startDate
      ∧ (patchPrice (patchName sub req) req).endDate = sub.endDate
      ∧ (patchPrice (patchName sub req) req).updatedAt = sub.updatedAt
      ∧ (req.serviceName = "" → (patchPrice (patchName sub req) req).serviceName = sub.serviceName)
      ∧ (¬ 0 < req.price → (patchPrice (patchName sub req) req).price = sub.price) := by
  unfold patchPrice patchName
  split_ifs <;> simp_all

theorem applyPatch_ok {sub : Subscription} {req : UpdateReq} {now : Int} {res : Subscription}
    (h : applyPatch sub req now = .ok res) :
    res.updatedAt = now ∧ res.id = sub.id ∧ res.userId = sub.userId ∧ res.createdAt = sub.createdAt
      ∧ (req.serviceName = "" → res.serviceName = sub.serviceName)
      ∧ (¬ 0 < req.price → res.price = sub.price)
      ∧ (req.startDate = "" → res.startDate = sub.startDate)
      ∧ (req.endDate = "" → res.endDate = sub.endDate) := by
  obtain ⟨f1, f2, f3, f4, f5, f6, f7, f8⟩ := patchSteps_fields sub req
  unfold applyPatch at h
  split_ifs at h with hsd
  · obtain ⟨e1, e2, e3, e4, e5, e6, e7, e8⟩ := applyPatchEnd_ok h
    exact ⟨e1, by rw [e2, f1], by rw [e3, f2], by rw [e4, f3],
      fun hn => by rw [e5]; exact f7 hn,
      fun hn => by rw [e6]; exact f8 hn,
      fun _ => by rw [e7, f4],
      fun hn => by rw [e8 hn, f5]⟩
  · cases hp : parseMonthYear req.startDate with
    | none => rw [hp] at h; exact Except.noConfusion h
    | some d =>
      rw [hp] at h
      obtain ⟨e1, e2, e3, e4, e5, e6, e7, e8⟩ := applyPatchEnd_ok h
      exact ⟨e1, by rw [e2]; exact f1, by rw [e3]; exact f2, by rw [e4]; exact f3,
        fun hn => by rw [e5]; exact f7 hn,
        fun hn => by rw [e6]; exact f8 hn,
        fun hsd2 => absurd hsd2 hsd,
        fun hn => by rw [e8 hn]; exact f5⟩

theorem serviceUpdate_ok_applyPatch
    {store : List Subscription} {id : Nat} {req : UpdateReq} {now : Int}
    {res : Subscription} {tr : List RepoCall} {store2 : List Subscription}
    {sub : Subscription}
    (hfound : getById store id = .ok sub)
    (hupd : serviceUpdate store id req now = (.ok res, tr, store2)) :
    applyPatch sub req now = .ok res := by
  unfold serviceUpdate at hupd
  rw [hfound] at hupd
  cases hp : applyPatch sub req now with
  | error e => simp [hp] at hupd
  | ok sub2 =>
    simp only [hp] at hupd
    cases hu : repoUpdate store sub2 with
    | error e => simp [hu] at hupd
    | ok st2 =>
      simp only [hu, Prod.mk.injEq, Except.ok.injEq] at hupd
      rw [hupd.1]

/-- Claim C6: a patch supplying only a positive price leaves
`service_name`, `start_date` and `end_date` unchanged and stamps
`updated_at` with the mutation-time clock reading (so it advances
whenever the clock does); more generally every empty or non-positive
patch field is a no-op on the corresponding field. Stated about the
entity computed and persisted by the service Update operation. -/
theorem update_patch_preserves_unspecified_fields
    (store : List Subscription) (id : Nat) (req : UpdateReq) (now : Int)
    (res : Subscription) (tr : List RepoCall) (store2 : List Subscription)
    (sub : Subscription)
    (hfound : getById store id = .ok sub)
    (hupd : serviceUpdate store id req now = (.ok res, tr, store2)) :
    res.updatedAt = now
      ∧ (sub.updatedAt < now → sub.updatedAt < res.updatedAt)
      ∧ (req.serviceName = "" → res.serviceName = sub.serviceName)
      ∧ (req.price ≤ 0 → res.price = sub.price)
      ∧ (req.startDate = "" → res.startDate = sub.startDate)
      ∧ (req.endDate = "" → res.endDate = sub.endDate)
      ∧ res.id = sub.id ∧ res.userId = sub.userId ∧ res.createdAt = sub.createdAt
      ∧ (req.serviceName = "" → req.startDate = "" → req.endDate = "" → 0 < req.price →
          res = { sub with price := req.price, updatedAt := now }) := by
  have hap := serviceUpdate_ok_applyPatch hfound hupd
  obtain ⟨e1, e2, e3, e4, e5, e6, e7, e8⟩ := applyPatch_ok hap
  refine ⟨e1, fun hc => by rw [e1]; exact hc, e5, fun hp0 => e6 (by omega), e7, e8, e2, e3, e4, ?_⟩
  intro h1 h2 h3 h4
  have hval : applyPatch sub req now = .ok { sub with price := req.price, updatedAt := now } := by
    simp [applyPatch, patchPrice, patchName, applyPatchEnd, h1, h2, h3, h4]
  exact (Except.ok.inj (hval.symm.trans hap)).symm

def c6Sub : Subscription :=
  { id := 1, serviceName := "Yandex", price := 400, userId := 7,
    startDate := ⟨2025, 1⟩, endDate := some ⟨2025, 12⟩, createdAt := 1, updatedAt := 1 }

def c6Req : UpdateReq :=
  { serviceName := "", price := 600, startDate := "", endDate := "" }

def c6Res : Subscription := { c6Sub with price := 600, updatedAt := 5 }

/-- Witness for C6: a price-only patch at a concrete store. -/
theorem update_patch_preserves_unspecified_fields_witness :
    c6Res.updatedAt = 5
      ∧ (c6Sub.updatedAt < 5 → c6Sub.updatedAt < c6Res.updatedAt)
      ∧ (c6Req.serviceName = "" → c6Res.serviceName = c6Sub.serviceName)
      ∧ (c6Req.price ≤ 0 → c6Res.price = c6Sub.price)
      ∧ (c6Req.startDate = "" → c6Res.startDate = c6Sub.startDate)
      ∧ (c6Req.endDate = "" → c6Res.endDate = c6Sub.endDate)
      ∧ c6Res.id = c6Sub.id ∧ c6Res.userId = c6Sub.userId ∧ c6Res.createdAt = c6Sub.createdAt
      ∧ (c6Req.serviceName = "" → c6Req.startDate = "" → c6Req.endDate = "" → 0 < c6Req.price →
          c6Res = { c6Sub with price := c6Req.price, updatedAt := 5 }) :=
  update_patch_preserves_unspecified_fields [c6Sub] 1 c6Req 5 c6Res
    [RepoCall.getById 1, RepoCall.update c6Res] [c6Res] c6Sub (by decide) (by decide)

/-- Counterexample to C7: the handler serializes `err.Error()` verbatim
into the 500 response body (handler/subscription.go lines 37, 69, 125,
167, 199, 262): for a storage failure whose wrapped message is
"failed to get subscription: connection refused", the boundary response
body is exactly that message, so the internal storage error text — here
the driver text "connection refused" — reaches the caller verbatim
rather than an opaque indication. -/
theorem storage_error_text_leaked :
    getSubscriptionResponse
        (.error (.storage "failed to get subscription: connection refused"))
      = (500, "failed to get subscription: connection refused")
      ∧ charsContain "connection refused".data
          "failed to get subscription: connection refused".data = true := by
  refine ⟨rfl, by decide⟩

/-- Claim C7 (amended): storage-layer failures are mapped to the 500
internal-error status and are logged, but the response body is
`err.Error()` itself: for every storage message, each handler's 500
body equals the internal message verbatim, so the storage error text is
exposed to the boundary caller (the spec's opacity requirement does not
hold in the code). -/
theorem storage_error_bodies_verbatim (msg : String) :
    getSubscriptionResponse (.error (.storage msg)) = (500, msg)
      ∧ createSubscriptionResponse (.error (.storage msg)) = (500, msg)
      ∧ updateSubscriptionResponse (.error (.storage msg)) = (500, msg) :=
  ⟨rfl, rfl, rfl⟩

/-- Claim C8: at creation `created_at` equals `updated_at` (both are the
same `time.Now()` reading), and every successful update stamps
`updated_at` with the mutation-time clock reading, so under strictly
increasing successive clock readings `updated_at` strictly increases on
every successful mutation. -/
theorem timestamps_monotone
    (store : List Subscription) (newId : Nat) (uid : Option Nat) (creq : CreateReq)
    (now1 : Int) (csub : Subscription) (cstore : List Subscription)
    (hc : serviceCreate store newId uid creq now1 = (.ok csub, cstore))
    (store2 : List Subscription) (id : Nat) (ureq : UpdateReq) (now2 : Int)
    (ures : Subscription) (tr : List RepoCall) (ustore : List Subscription)
    (s0 : Subscription)
    (hfound : getById store2 id = .ok s0)
    (hu : serviceUpdate store2 id ureq now2 = (.ok ures, tr, ustore))
    (hclock : s0.updatedAt < now2) :
    csub.createdAt = csub.updatedAt ∧ s0.updatedAt < ures.updatedAt := by
  constructor
  · unfold serviceCreate at hc
    cases uid with
    | none => simp at hc
    | some u =>
      cases hps : parseMonthYear creq.startDate with
      | none => simp [hps] at hc
      | some sd =>
        simp only [hps] at hc
        split_ifs at hc with he
        · simp only [Prod.mk.injEq, Except.ok.injEq] at hc
          rw [← hc.1]
        · cases hpe : parseMonthYear creq.endDate with
          | none => simp [hpe] at hc
          | some ed =>
            simp only [hpe, Prod.mk.injEq, Except.ok.injEq] at hc
            rw [← hc.1]
  · have hap := serviceUpdate_ok_applyPatch hfound hu
    have hstamp := (applyPatch_ok hap).1
    omega

def c8CreateReq : CreateReq :=
  { serviceName := "Yandex Plus", price := 400, userId := "u", startDate := "01-2025",
    endDate := "12-2025" }

def c8Created : Subscription :=
  { id := 5, serviceName := "Yandex Plus", price := 400, userId := 42,
    startDate := ⟨2025, 1⟩, endDate := some ⟨2025, 12⟩, createdAt := 3, updatedAt := 3 }

def c8UpdReq : UpdateReq :=
  { serviceName := "", price := 700, startDate := "", endDate := "" }

def c8Updated : Subscription := { c8Created with price := 700, updatedAt := 9 }

/-- Witness for C8: a concrete create followed by a concrete update
under a strictly increasing clock. -/
theorem timestamps_monotone_witness :
    c8Created.createdAt = c8Created.updatedAt ∧ c8Created.updatedAt < c8Updated.updatedAt :=
  timestamps_monotone [] 5 (some 42) c8CreateReq 3 c8Created [c8Created] (by decide)
    [c8Created] 5 c8UpdReq 9 c8Updated
    [RepoCall.getById 5, RepoCall.update c8Updated] [c8Updated] c8Created
    (by decide) (by decide) (by decide)

/-- Claim C9: every update preserves the `id` and `user_id` of every
stored row: the `UPDATE` statement's `SET` clause writes only
`service_name`, `price`, `start_date`, `end_date` and `updated_at`
(and the update request type carries no user-id field at all), so the
owning user recorded at creation survives every mutation. -/
theorem update_preserves_id_and_user
    (store : List Subscription) (id : Nat) (req : UpdateReq) (now : Int) :
    ((serviceUpdate store id req now).2.2).map (fun s => (s.id, s.userId))
      = store.map (fun s => (s.id, s.userId)) := by
  unfold serviceUpdate
  cases hg : getById store id with
  | error e => rfl
  | ok sub =>
    cases hp : applyPatch sub req now with
    | error e => simp [hp]
    | ok sub2 =>
      cases hu : repoUpdate store sub2 with
      | error e => simp [hp, hu]
      | ok store2 =>
        simp only [hp, hu]
        have hst : store2 = store.map (fun r => applyRowUpdate r sub2) := by
          unfold repoUpdate at hu
          split_ifs at hu with hx
          exact (Except.ok.inj hu).symm
        rw [hst, List.map_map]
        apply List.map_congr_left
        intro a ha
        simp only [Function.comp_apply]
        unfold applyRowUpdate
        split_ifs with hid <;> rfl

/-- Claim C10: when no stored subscription matches the cost filter, the
aggregation succeeds with a total of exactly 0 (the null SUM is
coalesced to zero rather than erroring), and the service wraps every
total in a response whose currency field is always "RUB". -/
theorem getTotalCost_zero_when_no_match
    (rows : List Subscription) (f : CostFilter)
    (h : ∀ s ∈ rows, costRowMatches f s = false) :
    serviceGetTotalCost rows f = { totalCost := 0, currency := "RUB" }
      ∧ ∀ (rows2 : List Subscription) (f2 : CostFilter),
          (serviceGetTotalCost rows2 f2).currency = "RUB" := by
  refine ⟨?_, fun rows2 f2 => rfl⟩
  unfold serviceGetTotalCost
  have hz : getTotalCost rows f = 0 := by
    induction rows with
    | nil => rfl
    | cons s rest ih =>
      have hs := h s (List.mem_cons_self s rest)
      simp only [getTotalCost, hs]
      rw [ih (fun x hx => h x (List.mem_cons_of_mem s hx))]
      simp
  rw [hz]

def c10Sub : Subscription :=
  { id := 1, serviceName := "Yandex", price := 400, userId := 7,
    startDate := ⟨2025, 1⟩, endDate := some ⟨2025, 12⟩, createdAt := 0, updatedAt := 0 }

def c10Filter : CostFilter :=
  { userId := some 9, serviceName := "", startDate := ⟨2025, 1⟩, endDate := ⟨2025, 12⟩ }

/-- Witness for C10: a store whose only row belongs to a different user
than the filtered one. -/
theorem getTotalCost_zero_when_no_match_witness :
    serviceGetTotalCost [c10Sub] c10Filter = { totalCost := 0, currency := "RUB" }
      ∧ ∀ (rows2 : List Subscription) (f2 : CostFilter),
          (serviceGetTotalCost rows2 f2).currency = "RUB" :=
  getTotalCost_zero_when_no_match [c10Sub] c10Filter (by decide)
